import Mathlib

/-!
# Censorship service (`cmd/main.go`)

A shallow embedding of the comment validator and of the HTTP handler of the
censorship service, followed by the properties of its specification.

Modelling conventions.

* A Go `string` holding UTF-8 text is a Lean `String`, that is a sequence of
  Unicode scalar values.  UTF-8 is self-synchronising, so for well-formed text
  the byte-wise `strings.Contains` coincides with containment of the sequence
  of runes, which is what `Contains` below computes.
* The standard library is outside the repository.  `strings.ToLower`,
  `unicode.ToLower`, `strings.Index` and `strings.Contains` are embedded from
  their library definitions; the Unicode case table consulted for non-ASCII
  runes, the JSON decoder and the UUID generator are parameters, so every
  result holds whatever they return.
* The `http.ResponseWriter` is modelled by the response it ends up holding:
  the status code handed to `WriteHeader` (directly or through `http.Error`)
  and the text handed to `http.Error`, respectively the payload handed to the
  JSON encoder.  The transport framing added by the library (the line feed
  that `http.Error` and `Encoder.Encode` append) is not part of the model.
* `log.Printf` calls are collected in order; the time stamp prefix is omitted
  and the elapsed time of the last line is a parameter.
-/

namespace Censorship

/-! ## Library functions used by the service -/

/-- The rune-wise lowering of `unicode.ToLower`: ASCII runes are handled by the
arithmetic fast path (`r += 'a' - 'A'` for `'A' ≤ r ≤ 'Z'`), every other rune is
looked up in the Unicode case table `caseTable`. -/
def unicodeToLower (caseTable : Char → Char) (r : Char) : Char :=
  if r.toNat ≤ 127 then
    if 'A'.toNat ≤ r.toNat ∧ r.toNat ≤ 'Z'.toNat then
      Char.ofNat (r.toNat + ('a'.toNat - 'A'.toNat))
    else r
  else caseTable r

/-- The function `strings.ToLower`: every rune of `s` mapped to lower case. -/
def ToLower (caseTable : Char → Char) (s : String) : String :=
  ⟨s.data.map (unicodeToLower caseTable)⟩

/-- The search of `strings.Index`, started at offset `i`: the offset of the
first occurrence of `substr` in `s`, or `-1` when there is none. -/
def indexFrom (substr : List Char) : List Char → Nat → Int
  | [], i => if substr.isPrefixOf [] then (i : Int) else -1
  | c :: t, i => if substr.isPrefixOf (c :: t) then (i : Int) else indexFrom substr t (i + 1)

/-- The function `strings.Index` (offsets counted in runes). -/
def Index (s substr : String) : Int :=
  indexFrom substr.data s.data 0

/-- The function `strings.Contains`: `Index(s, substr) >= 0`. -/
def Contains (s substr : String) : Bool :=
  decide (Index s substr ≥ 0)

/-! ## The service -/

/-- The struct `CensorshipService`. -/
structure CensorshipService where
  blockedWords : List String

/-- The struct `RequestPayload`. -/
structure RequestPayload where
  Comment : String
deriving DecidableEq

/-- The struct `ResponsePayload`. -/
structure ResponsePayload where
  Message : String
deriving DecidableEq

/-- The constructor `NewCensorshipService`. -/
def NewCensorshipService (blockedWords : List String) : CensorshipService :=
  { blockedWords := blockedWords }

/-- The `for _, word := range s.blockedWords` loop of `validateComment`: it
returns `false` at the first word contained in the comment and `true` when the
range is exhausted. -/
def validateCommentLoop (caseTable : Char → Char) (comment : String) : List String → Bool
  | [] => true
  | word :: rest =>
    if Contains (ToLower caseTable comment) (ToLower caseTable word) then false
    else validateCommentLoop caseTable comment rest

/-- The method `CensorshipService.validateComment`. -/
def CensorshipService.validateComment (caseTable : Char → Char) (s : CensorshipService)
    (comment : String) : Bool :=
  validateCommentLoop caseTable comment s.blockedWords

/-- The blocklist built in `main`. -/
def mainBlockedWords : List String := ["spam", "offensive", "banned"]

/-- The service registered by `main`. -/
def mainService : CensorshipService := NewCensorshipService mainBlockedWords

/-! ## The HTTP handler -/

/-- The parts of the run-time environment that live outside the repository. -/
structure Runtime where
  /-- The Unicode case table behind `unicode.ToLower` for non-ASCII runes. -/
  caseTable : Char → Char
  /-- The call `json.NewDecoder(r.Body).Decode(&payload)`: the decoded payload, or
  the text of the error. -/
  decodeJSON : String → Except String RequestPayload
  /-- The value of `uuid.New().String()`. -/
  newUUID : String
  /-- The rendering of `time.Since(start)`. -/
  elapsed : String

/-- The fields of `http.Request` read by the handler; `XRequestID` is the value
of `r.Header.Get("X-Request-ID")`, empty when the header is absent. -/
structure Request where
  Method : String
  XRequestID : String
  Body : String

/-- What the handler wrote to the response. -/
inductive ResponseBody where
  | plainText (text : String)
  | json (payload : ResponsePayload)
deriving DecidableEq

/-- The response held by the `http.ResponseWriter` when the handler returns. -/
structure Response where
  statusCode : Nat
  body : ResponseBody
deriving DecidableEq

/-- The outcome of one handler call: the response and the log lines. -/
structure HandlerResult where
  response : Response
  log : List String

/-- The constant `http.MethodPost`. -/
def MethodPost : String := "POST"

/-- The constant `http.StatusOK`. -/
def StatusOK : Nat := 200

/-- The constant `http.StatusBadRequest`. -/
def StatusBadRequest : Nat := 400

/-- The constant `http.StatusMethodNotAllowed`. -/
def StatusMethodNotAllowed : Nat := 405

/-- The response produced by `http.Error(w, text, code)`. -/
def httpError (text : String) (code : Nat) : Response :=
  { statusCode := code, body := ResponseBody.plainText text }

/-- The response produced by `w.WriteHeader(code)` followed by
`json.NewEncoder(w).Encode(payload)`. -/
def writeJSON (code : Nat) (payload : ResponsePayload) : Response :=
  { statusCode := code, body := ResponseBody.json payload }

/-- The method `CensorshipService.handler`. -/
def CensorshipService.handler (rt : Runtime) (s : CensorshipService) (r : Request) :
    HandlerResult :=
  let requestID := if r.XRequestID = "" then rt.newUUID else r.XRequestID
  let received := "[" ++ requestID ++ "] Received request"
  if r.Method ≠ MethodPost then
    { response := httpError "Method not allowed" StatusMethodNotAllowed
      log := [received, "[" ++ requestID ++ "] Method not allowed"] }
  else
    match rt.decodeJSON r.Body with
    | Except.error err =>
      { response := httpError "Invalid request payload" StatusBadRequest
        log := [received, "[" ++ requestID ++ "] Invalid request payload: " ++ err] }
    | Except.ok payload =>
      if payload.Comment = "" then
        { response := httpError "Comment is empty" StatusBadRequest
          log := [received, "[" ++ requestID ++ "] Comment is empty"] }
      else if !s.validateComment rt.caseTable payload.Comment then
        { response := writeJSON StatusBadRequest
            { Message := "Comment contains inappropriate content" }
          log := [received, "[" ++ requestID ++ "] Validation failed: " ++ payload.Comment] }
      else
        { response := writeJSON StatusOK { Message := "Comment is valid" }
          log := [received, "[" ++ requestID ++ "] Validation succeeded: " ++ payload.Comment
            ++ " (Processed in " ++ rt.elapsed ++ ")"] }

/-- A decoder instance for concrete requests: it accepts exactly the bodies
written `{"comment":"<text>"}` whose text has no quote, no backslash and no
control character (where the library decoder yields that text as the comment),
and reports an error on any other body. -/
def decodeCanonical (body : String) : Except String RequestPayload :=
  let opening := "\x7b\"comment\":\"".data
  let closing := "\"\x7d".data
  let rest := body.data.drop opening.length
  let text := rest.take (rest.length - closing.length)
  if opening.isPrefixOf body.data ∧ closing.isSuffixOf rest
      ∧ text.all (fun c => c ≠ '"' ∧ c ≠ '\\' ∧ 32 ≤ c.toNat) then
    Except.ok { Comment := ⟨text⟩ }
  else Except.error "invalid body"

/-- A run-time environment for concrete requests: the identity case table
beyond ASCII, the canonical decoder and fixed texts for the identifier and the
elapsed time. -/
def sampleRuntime : Runtime :=
  { caseTable := fun r => r
    decodeJSON := decodeCanonical
    newUUID := "00000000-0000-4000-8000-000000000000"
    elapsed := "1ms" }

/-! ## Containment -/

theorem indexFrom_neg (sub : List Char) (l : List Char) (i : Nat)
    (h : ¬ sub <:+: l) : indexFrom sub l i = -1 := by
  induction l generalizing i with
  | nil =>
    have : ¬ sub <+: [] := fun hp => h hp.isInfix
    simp [indexFrom, List.isPrefixOf_iff_prefix, this]
  | cons c t ih =>
    rw [List.infix_cons_iff, not_or] at h
    simp [indexFrom, List.isPrefixOf_iff_prefix, h.1, ih (i + 1) h.2]

theorem indexFrom_nonneg (sub : List Char) (l : List Char) (i : Nat)
    (h : sub <:+: l) : 0 ≤ indexFrom sub l i := by
  induction l generalizing i with
  | nil =>
    have : sub <+: [] := by
      rw [List.infix_nil] at h
      subst h
      exact List.prefix_rfl
    simp [indexFrom, List.isPrefixOf_iff_prefix, this]
  | cons c t ih =>
    rw [List.infix_cons_iff] at h
    by_cases hp : sub <+: c :: t
    · simp [indexFrom, List.isPrefixOf_iff_prefix, hp]
    · simp only [indexFrom, List.isPrefixOf_iff_prefix, hp, if_false]
      exact ih (i + 1) (h.resolve_left hp)

/-- The function `Contains` decides containment as a contiguous run. -/
theorem Contains_iff (s sub : String) : Contains s sub = true ↔ sub.data <:+: s.data := by
  unfold Contains Index
  rw [decide_eq_true_iff]
  constructor
  · intro h
    by_contra hn
    rw [indexFrom_neg _ _ 0 hn] at h
    omega
  · exact indexFrom_nonneg _ _ 0

theorem validateCommentLoop_eq_true (caseTable : Char → Char) (comment : String)
    (ws : List String) :
    validateCommentLoop caseTable comment ws = true ↔
      ∀ w ∈ ws, ¬ (ToLower caseTable w).data <:+: (ToLower caseTable comment).data := by
  induction ws with
  | nil => simp [validateCommentLoop]
  | cons w rest ih =>
    by_cases hc : Contains (ToLower caseTable comment) (ToLower caseTable w) = true
    · have hi := (Contains_iff _ _).1 hc
      simp [validateCommentLoop, hc, hi]
    · have hi : ¬ (ToLower caseTable w).data <:+: (ToLower caseTable comment).data :=
        fun h => hc ((Contains_iff _ _).2 h)
      simp [validateCommentLoop, hc, hi, ih]

theorem validateCommentLoop_eq_false (caseTable : Char → Char) (comment : String)
    (ws : List String) :
    validateCommentLoop caseTable comment ws = false ↔
      ∃ w ∈ ws, (ToLower caseTable w).data <:+: (ToLower caseTable comment).data := by
  rw [← Bool.not_eq_true, validateCommentLoop_eq_true]
  push_neg
  rfl

theorem ToLower_append (caseTable : Char → Char) (a b : String) :
    ToLower caseTable (a ++ b) = ToLower caseTable a ++ ToLower caseTable b := by
  apply String.ext
  simp [ToLower, String.data_append]

/-! ## The four paths of the handler -/

theorem handler_of_not_post (rt : Runtime) (s : CensorshipService) (r : Request)
    (hm : r.Method ≠ MethodPost) :
    (s.handler rt r).response = httpError "Method not allowed" StatusMethodNotAllowed := by
  simp [CensorshipService.handler, hm]

theorem handler_of_decode_error (rt : Runtime) (s : CensorshipService) (r : Request)
    (err : String) (hm : r.Method = MethodPost)
    (hd : rt.decodeJSON r.Body = Except.error err) :
    s.handler rt r =
      { response := httpError "Invalid request payload" StatusBadRequest
        log := ["[" ++ (if r.XRequestID = "" then rt.newUUID else r.XRequestID)
            ++ "] Received request",
          "[" ++ (if r.XRequestID = "" then rt.newUUID else r.XRequestID)
            ++ "] Invalid request payload: " ++ err] } := by
  simp [CensorshipService.handler, hm, hd]

theorem handler_of_empty_comment (rt : Runtime) (s : CensorshipService) (r : Request)
    (hm : r.Method = MethodPost)
    (hd : rt.decodeJSON r.Body = Except.ok { Comment := "" }) :
    s.handler rt r =
      { response := httpError "Comment is empty" StatusBadRequest
        log := ["[" ++ (if r.XRequestID = "" then rt.newUUID else r.XRequestID)
            ++ "] Received request",
          "[" ++ (if r.XRequestID = "" then rt.newUUID else r.XRequestID)
            ++ "] Comment is empty"] } := by
  simp [CensorshipService.handler, hm, hd]

theorem handler_of_comment (rt : Runtime) (s : CensorshipService) (r : Request)
    (c : String) (hm : r.Method = MethodPost)
    (hd : rt.decodeJSON r.Body = Except.ok { Comment := c }) (hc : c ≠ "") :
    (s.handler rt r).response =
      if s.validateComment rt.caseTable c = true then
        writeJSON StatusOK { Message := "Comment is valid" }
      else writeJSON StatusBadRequest { Message := "Comment contains inappropriate content" } := by
  cases hv : s.validateComment rt.caseTable c <;>
    simp [CensorshipService.handler, hm, hd, hc, hv]

theorem handler_statusCode_cases (rt : Runtime) (s : CensorshipService) (r : Request) :
    (s.handler rt r).response.statusCode = 405 ∨
    (s.handler rt r).response.statusCode = 400 ∨
    ((s.handler rt r).response.statusCode = 200 ∧
      ∃ c, c ≠ "" ∧ s.validateComment rt.caseTable c = true) := by
  by_cases hm : r.Method = MethodPost
  · cases hd : rt.decodeJSON r.Body with
    | error err =>
      right; left
      rw [handler_of_decode_error rt s r err hm hd]
      rfl
    | ok payload =>
      obtain ⟨c⟩ := payload
      by_cases hc : c = ""
      · subst hc
        right; left
        rw [handler_of_empty_comment rt s r hm hd]
        rfl
      · rw [handler_of_comment rt s r c hm hd hc]
        cases hv : s.validateComment rt.caseTable c
        · right; left
          simp [writeJSON, StatusBadRequest]
        · right; right
          exact ⟨by simp [writeJSON, StatusOK], c, hc, hv⟩
  · left
    rw [handler_of_not_post rt s r hm]
    rfl

/-! ## The validator -/

/-- Claim C1: on a service built from the blocklist `ws`, `validateComment c` is
`true` exactly when no word of `ws` has its lower-cased form contained in the
lower-cased comment, and `false` exactly when some word has. -/
theorem validateComment_iff (caseTable : Char → Char) (ws : List String) (c : String) :
    ((NewCensorshipService ws).validateComment caseTable c = true ↔
      ¬ ∃ w ∈ ws, ∃ p q : List Char,
        p ++ (ToLower caseTable w).data ++ q = (ToLower caseTable c).data) ∧
    ((NewCensorshipService ws).validateComment caseTable c = false ↔
      ∃ w ∈ ws, ∃ p q : List Char,
        p ++ (ToLower caseTable w).data ++ q = (ToLower caseTable c).data) := by
  refine ⟨?_, ?_⟩
  · rw [CensorshipService.validateComment, NewCensorshipService,
      validateCommentLoop_eq_true]
    constructor
    · rintro h ⟨w, hw, p, q, hpq⟩
      exact h w hw ⟨p, q, hpq⟩
    · rintro h w hw ⟨p, q, hpq⟩
      exact h ⟨w, hw, p, q, hpq⟩
  · rw [CensorshipService.validateComment, NewCensorshipService,
      validateCommentLoop_eq_false]
    constructor
    · rintro ⟨w, hw, p, q, hpq⟩
      exact ⟨w, hw, p, q, hpq⟩
    · rintro ⟨w, hw, p, q, hpq⟩
      exact ⟨w, hw, p, q, hpq⟩

/-- Claim C2: matching ignores case and word boundaries.  Whenever `v` is a
re-casing of a blocked word `w`, every comment `p ++ v ++ s` is rejected,
whatever surrounds `v`; with the blocklist of `main`, "SPAM is bad" and
"this spammer called" are rejected. -/
theorem validateComment_recased_substring (caseTable : Char → Char) :
    (∀ (ws : List String) (w v p s : String), w ∈ ws →
      ToLower caseTable v = ToLower caseTable w →
      (NewCensorshipService ws).validateComment caseTable (p ++ v ++ s) = false) ∧
    (NewCensorshipService ["spam", "offensive", "banned"]).validateComment caseTable
      "SPAM is bad" = false ∧
    (NewCensorshipService ["spam", "offensive", "banned"]).validateComment caseTable
      "this spammer called" = false := by
  have key : ∀ (ws : List String) (w v p s : String), w ∈ ws →
      ToLower caseTable v = ToLower caseTable w →
      (NewCensorshipService ws).validateComment caseTable (p ++ v ++ s) = false := by
    intro ws w v p s hw hv
    rw [CensorshipService.validateComment, NewCensorshipService,
      validateCommentLoop_eq_false]
    refine ⟨w, hw, (ToLower caseTable p).data, (ToLower caseTable s).data, ?_⟩
    rw [ToLower_append, ToLower_append, hv, String.data_append, String.data_append]
  refine ⟨key, ?_, ?_⟩
  · exact key _ "spam" "SPAM" "" " is bad" (by simp) rfl
  · exact key _ "spam" "spam" "this " "mer called" (by simp) rfl

/-- Witness for C2: the blocked word "banned" re-cased as "BaNNeD" inside
"unBaNNeDx". -/
theorem validateComment_recased_substring_witness :
    "banned" ∈ ["spam", "offensive", "banned"] ∧
    ToLower (fun r => r) "BaNNeD" = ToLower (fun r => r) "banned" ∧
    (NewCensorshipService ["spam", "offensive", "banned"]).validateComment (fun r => r)
      ("un" ++ "BaNNeD" ++ "x") = false :=
  ⟨by simp, by decide,
    (validateComment_recased_substring (fun r => r)).1 _ "banned" "BaNNeD" "un" "x"
      (by simp) (by decide)⟩

/-- Claim C8: with an empty blocklist every comment is valid. -/
theorem validateComment_empty_blocklist (caseTable : Char → Char) (c : String) :
    (NewCensorshipService []).validateComment caseTable c = true := by
  rfl

/-- Claim C9: the verdict does not depend on the order of the blocklist: two
blocklists that are permutations of each other give the same result on every
comment. -/
theorem validateComment_perm (caseTable : Char → Char) (ws ws' : List String) (c : String)
    (h : ws.Perm ws') :
    (NewCensorshipService ws).validateComment caseTable c =
      (NewCensorshipService ws').validateComment caseTable c := by
  rw [Bool.eq_iff_iff]
  simp only [CensorshipService.validateComment, NewCensorshipService,
    validateCommentLoop_eq_true]
  constructor
  · intro hall w hw
    exact hall w (h.mem_iff.2 hw)
  · intro hall w hw
    exact hall w (h.mem_iff.1 hw)

/-- Witness for C9: the comment "Banned spam" holds both words of the
blocklist, which is taken in its two orders. -/
theorem validateComment_perm_witness :
    ["banned", "spam"].Perm ["spam", "banned"] ∧
    (NewCensorshipService ["banned", "spam"]).validateComment (fun r => r) "Banned spam" =
      (NewCensorshipService ["spam", "banned"]).validateComment (fun r => r) "Banned spam" :=
  ⟨List.Perm.swap "spam" "banned" [],
    validateComment_perm (fun r => r) _ _ "Banned spam" (List.Perm.swap "spam" "banned" [])⟩

/-- Claim C10: when the blocklist holds the empty string, every comment is
rejected, the empty one included; such a service never answers 200, and a POST
request carrying a non-empty comment gets the 400 rejection. -/
theorem validateComment_empty_word (ws : List String) (h : "" ∈ ws) :
    (∀ (caseTable : Char → Char) (c : String),
      (NewCensorshipService ws).validateComment caseTable c = false) ∧
    (∀ (rt : Runtime) (r : Request),
      ((NewCensorshipService ws).handler rt r).response.statusCode ≠ 200 ∧
      ((NewCensorshipService ws).handler rt r).response ≠
        { statusCode := 200, body := ResponseBody.json { Message := "Comment is valid" } }) ∧
    (∀ (rt : Runtime) (r : Request) (c : String), r.Method = "POST" →
      rt.decodeJSON r.Body = Except.ok { Comment := c } → c ≠ "" →
      ((NewCensorshipService ws).handler rt r).response =
        { statusCode := 400
          body := ResponseBody.json { Message := "Comment contains inappropriate content" } }) := by
  have key : ∀ (caseTable : Char → Char) (c : String),
      (NewCensorshipService ws).validateComment caseTable c = false := by
    intro caseTable c
    rw [CensorshipService.validateComment, NewCensorshipService,
      validateCommentLoop_eq_false]
    exact ⟨"", h, List.nil_infix⟩
  have status : ∀ (rt : Runtime) (r : Request),
      ((NewCensorshipService ws).handler rt r).response.statusCode ≠ 200 := by
    intro rt r
    rcases handler_statusCode_cases rt (NewCensorshipService ws) r with h1 | h1 | ⟨_, c, _, hv⟩
    · rw [h1]; decide
    · rw [h1]; decide
    · rw [key] at hv
      exact absurd hv (by decide)
  refine ⟨key, ?_, ?_⟩
  · intro rt r
    refine ⟨status rt r, ?_⟩
    intro heq
    exact status rt r (by rw [heq])
  · intro rt r c hm hd hc
    rw [handler_of_comment rt _ r c hm hd hc, key]
    rfl

/-- Witness for C10: the blocklist `["spam", ""]` and the comment "fine". -/
theorem validateComment_empty_word_witness :
    "" ∈ ["spam", ""] ∧
    (NewCensorshipService ["spam", ""]).validateComment (fun r => r) "fine" = false ∧
    ((NewCensorshipService ["spam", ""]).handler sampleRuntime
      { Method := "POST", XRequestID := "", Body := "\x7b\"comment\":\"fine\"\x7d" }).response =
        { statusCode := 400
          body := ResponseBody.json { Message := "Comment contains inappropriate content" } } :=
  ⟨by simp,
    (validateComment_empty_word ["spam", ""] (by simp)).1 (fun r => r) "fine",
    (validateComment_empty_word ["spam", ""] (by simp)).2.2 sampleRuntime
      { Method := "POST", XRequestID := "", Body := "\x7b\"comment\":\"fine\"\x7d" }
      "fine" rfl rfl (by decide)⟩

/-! ## The handler -/

/-- Claim C3: for a POST request whose body decodes to a non-empty comment `c`,
the response follows the verdict of the validator: status 200 with the JSON
message "Comment is valid" when `validateComment c` is `true`, status 400 with
the JSON message "Comment contains inappropriate content" when it is `false`.
With the blocklist of `main`, the comment "hello world" gives 200 and the
comment "this is spam" gives 400. -/
theorem handler_follows_verdict :
    (∀ (rt : Runtime) (s : CensorshipService) (r : Request) (c : String),
      r.Method = "POST" → rt.decodeJSON r.Body = Except.ok { Comment := c } → c ≠ "" →
      (s.validateComment rt.caseTable c = true →
        (s.handler rt r).response =
          { statusCode := 200, body := ResponseBody.json { Message := "Comment is valid" } }) ∧
      (s.validateComment rt.caseTable c = false →
        (s.handler rt r).response =
          { statusCode := 400
            body := ResponseBody.json
              { Message := "Comment contains inappropriate content" } })) ∧
    (∀ (rt : Runtime) (r : Request), r.Method = "POST" →
      rt.decodeJSON r.Body = Except.ok { Comment := "hello world" } →
      ((NewCensorshipService ["spam", "offensive", "banned"]).handler rt r).response =
        { statusCode := 200, body := ResponseBody.json { Message := "Comment is valid" } }) ∧
    (∀ (rt : Runtime) (r : Request), r.Method = "POST" →
      rt.decodeJSON r.Body = Except.ok { Comment := "this is spam" } →
      ((NewCensorshipService ["spam", "offensive", "banned"]).handler rt r).response =
        { statusCode := 400
          body := ResponseBody.json
            { Message := "Comment contains inappropriate content" } }) := by
  refine ⟨?_, ?_, ?_⟩
  · intro rt s r c hm hd hc
    constructor
    · intro hv
      rw [handler_of_comment rt s r c hm hd hc, hv]
      rfl
    · intro hv
      rw [handler_of_comment rt s r c hm hd hc, hv]
      rfl
  · intro rt r hm hd
    rw [handler_of_comment rt _ r _ hm hd (by decide)]
    rfl
  · intro rt r hm hd
    rw [handler_of_comment rt _ r _ hm hd (by decide)]
    rfl

/-- Witness for C3: the two POST requests of the specification, with bodies
`{"comment":"hello world"}` and `{"comment":"this is spam"}`, sent to the
service of `main`. -/
theorem handler_follows_verdict_witness :
    (mainService.handler sampleRuntime
      { Method := "POST", XRequestID := ""
        Body := "\x7b\"comment\":\"hello world\"\x7d" }).response =
      { statusCode := 200, body := ResponseBody.json { Message := "Comment is valid" } } ∧
    (mainService.handler sampleRuntime
      { Method := "POST", XRequestID := "req-1"
        Body := "\x7b\"comment\":\"this is spam\"\x7d" }).response =
      { statusCode := 400
        body := ResponseBody.json { Message := "Comment contains inappropriate content" } } ∧
    ((NewCensorshipService ["spam", "offensive", "banned"]).handler sampleRuntime
      { Method := "POST", XRequestID := ""
        Body := "\x7b\"comment\":\"hello world\"\x7d" }).response =
      { statusCode := 200, body := ResponseBody.json { Message := "Comment is valid" } } ∧
    ((NewCensorshipService ["spam", "offensive", "banned"]).handler sampleRuntime
      { Method := "POST", XRequestID := ""
        Body := "\x7b\"comment\":\"this is spam\"\x7d" }).response =
      { statusCode := 400
        body := ResponseBody.json { Message := "Comment contains inappropriate content" } } :=
  ⟨(handler_follows_verdict.1 sampleRuntime mainService
      { Method := "POST", XRequestID := ""
        Body := "\x7b\"comment\":\"hello world\"\x7d" }
      "hello world" rfl rfl (by decide)).1 rfl,
    (handler_follows_verdict.1 sampleRuntime mainService
      { Method := "POST", XRequestID := "req-1"
        Body := "\x7b\"comment\":\"this is spam\"\x7d" }
      "this is spam" rfl rfl (by decide)).2 rfl,
    handler_follows_verdict.2.1 sampleRuntime
      { Method := "POST", XRequestID := ""
        Body := "\x7b\"comment\":\"hello world\"\x7d" } rfl rfl,
    handler_follows_verdict.2.2 sampleRuntime
      { Method := "POST", XRequestID := ""
        Body := "\x7b\"comment\":\"this is spam\"\x7d" } rfl rfl⟩

/-- Claim C4: a request whose method is not POST is answered with status 405 and
the plain text "Method not allowed"; the response is the same for every body,
every decoder and every blocklist. -/
theorem handler_method_not_allowed (rt : Runtime) (s : CensorshipService) (r : Request)
    (hm : r.Method ≠ "POST") :
    (s.handler rt r).response =
      { statusCode := 405, body := ResponseBody.plainText "Method not allowed" } ∧
    ∀ (rt' : Runtime) (s' : CensorshipService) (body : String),
      (s'.handler rt' { r with Body := body }).response = (s.handler rt r).response := by
  refine ⟨by rw [handler_of_not_post rt s r hm]; rfl, ?_⟩
  intro rt' s' body
  rw [handler_of_not_post rt s r hm, handler_of_not_post rt' s' { r with Body := body } hm]

/-- Witness for C4: a GET request carrying a blocked comment. -/
theorem handler_method_not_allowed_witness :
    (mainService.handler sampleRuntime
      { Method := "GET", XRequestID := ""
        Body := "\x7b\"comment\":\"this is spam\"\x7d" }).response =
      { statusCode := 405, body := ResponseBody.plainText "Method not allowed" } :=
  (handler_method_not_allowed sampleRuntime mainService
    { Method := "GET", XRequestID := "", Body := "\x7b\"comment\":\"this is spam\"\x7d" }
    (by decide)).1

/-- Claim C5: a POST request whose body fails to decode is answered with status
400 and the plain text "Invalid request payload"; the validator plays no part:
the whole outcome is the same for every blocklist. -/
theorem handler_invalid_payload (rt : Runtime) (s : CensorshipService) (r : Request)
    (err : String) (hm : r.Method = "POST")
    (hd : rt.decodeJSON r.Body = Except.error err) :
    (s.handler rt r).response =
      { statusCode := 400, body := ResponseBody.plainText "Invalid request payload" } ∧
    ∀ s' : CensorshipService, s'.handler rt r = s.handler rt r := by
  refine ⟨by rw [handler_of_decode_error rt s r err hm hd]; rfl, ?_⟩
  intro s'
  rw [handler_of_decode_error rt s r err hm hd, handler_of_decode_error rt s' r err hm hd]

/-- Witness for C5: the POST request with the truncated body `{"comment":`. -/
theorem handler_invalid_payload_witness :
    sampleRuntime.decodeJSON "\x7b\"comment\":" = Except.error "invalid body" ∧
    (mainService.handler sampleRuntime
      { Method := "POST", XRequestID := "", Body := "\x7b\"comment\":" }).response =
      { statusCode := 400, body := ResponseBody.plainText "Invalid request payload" } :=
  ⟨rfl,
    (handler_invalid_payload sampleRuntime mainService
      { Method := "POST", XRequestID := "", Body := "\x7b\"comment\":" }
      "invalid body" rfl rfl).1⟩

/-- Claim C6: a POST request whose body decodes to an empty comment is answered
with status 400 and the plain text "Comment is empty"; this response differs
from the one given to a body that fails to decode, and the validator plays no
part: the whole outcome is the same for every blocklist. -/
theorem handler_empty_comment (rt : Runtime) (s : CensorshipService) (r : Request)
    (hm : r.Method = "POST") (hd : rt.decodeJSON r.Body = Except.ok { Comment := "" }) :
    (s.handler rt r).response =
      { statusCode := 400, body := ResponseBody.plainText "Comment is empty" } ∧
    (∀ (rt' : Runtime) (s' : CensorshipService) (r' : Request) (err : String),
      r'.Method = "POST" → rt'.decodeJSON r'.Body = Except.error err →
      (s.handler rt r).response ≠ (s'.handler rt' r').response) ∧
    ∀ s' : CensorshipService, s'.handler rt r = s.handler rt r := by
  refine ⟨by rw [handler_of_empty_comment rt s r hm hd]; rfl, ?_, ?_⟩
  · intro rt' s' r' err hm' hd'
    rw [handler_of_empty_comment rt s r hm hd, handler_of_decode_error rt' s' r' err hm' hd']
    show httpError "Comment is empty" StatusBadRequest ≠
      httpError "Invalid request payload" StatusBadRequest
    decide
  · intro s'
    rw [handler_of_empty_comment rt s r hm hd, handler_of_empty_comment rt s' r hm hd]

/-- Witness for C6: the POST request with body `{"comment":""}`, sent to the
service of `main`. -/
theorem handler_empty_comment_witness :
    sampleRuntime.decodeJSON "\x7b\"comment\":\"\"\x7d" = Except.ok { Comment := "" } ∧
    sampleRuntime.decodeJSON "\x7b\"comment\":" = Except.error "invalid body" ∧
    (mainService.handler sampleRuntime
      { Method := "POST", XRequestID := "", Body := "\x7b\"comment\":\"\"\x7d" }).response =
      { statusCode := 400, body := ResponseBody.plainText "Comment is empty" } ∧
    (mainService.handler sampleRuntime
      { Method := "POST", XRequestID := "", Body := "\x7b\"comment\":\"\"\x7d" }).response ≠
    (mainService.handler sampleRuntime
      { Method := "POST", XRequestID := "", Body := "\x7b\"comment\":" }).response :=
  ⟨rfl, rfl,
    (handler_empty_comment sampleRuntime mainService
      { Method := "POST", XRequestID := "", Body := "\x7b\"comment\":\"\"\x7d" }
      rfl rfl).1,
    (handler_empty_comment sampleRuntime mainService
      { Method := "POST", XRequestID := "", Body := "\x7b\"comment\":\"\"\x7d" }
      rfl rfl).2.1 sampleRuntime mainService
      { Method := "POST", XRequestID := "", Body := "\x7b\"comment\":" }
      "invalid body" rfl rfl⟩

/-- Counterexample for C7: on the service of `main`, the POST request with the
truncated body `{"comment":` (which fails to decode) and the POST request with
body `{"comment":""}` (which decodes to an empty comment) both get status 400,
so the three error statuses are not pairwise different. -/
theorem error_statuses_not_pairwise_distinct :
    sampleRuntime.decodeJSON "\x7b\"comment\":" = Except.error "invalid body" ∧
    sampleRuntime.decodeJSON "\x7b\"comment\":\"\"\x7d" = Except.ok { Comment := "" } ∧
    (mainService.handler sampleRuntime
      { Method := "POST", XRequestID := "", Body := "\x7b\"comment\":" }).response.statusCode
      = 400 ∧
    (mainService.handler sampleRuntime
      { Method := "POST", XRequestID := ""
        Body := "\x7b\"comment\":\"\"\x7d" }).response.statusCode = 400 ∧
    ¬ ((mainService.handler sampleRuntime
        { Method := "POST", XRequestID := "", Body := "\x7b\"comment\":" }).response.statusCode
      ≠ (mainService.handler sampleRuntime
        { Method := "POST", XRequestID := ""
          Body := "\x7b\"comment\":\"\"\x7d" }).response.statusCode) := by
  refine ⟨rfl, rfl, rfl, rfl, ?_⟩
  decide

/-- Claim C7, amended: the three plain-text error responses are pairwise
different and each carries a status of the 4xx range; the status is 405 for a
request that is not a POST, and 400 both for a POST whose body fails to decode
and for a POST with an empty comment, these two being told apart by their text
only. -/
theorem error_responses_distinct (rt : Runtime) (s : CensorshipService)
    (r₁ r₂ r₃ : Request) (err : String)
    (h₁ : r₁.Method ≠ "POST")
    (h₂ : r₂.Method = "POST") (hd₂ : rt.decodeJSON r₂.Body = Except.error err)
    (h₃ : r₃.Method = "POST") (hd₃ : rt.decodeJSON r₃.Body = Except.ok { Comment := "" }) :
    (s.handler rt r₁).response.statusCode = 405 ∧
    (s.handler rt r₂).response.statusCode = 400 ∧
    (s.handler rt r₃).response.statusCode = 400 ∧
    (∀ r ∈ [r₁, r₂, r₃], 400 ≤ (s.handler rt r).response.statusCode ∧
      (s.handler rt r).response.statusCode < 500) ∧
    (s.handler rt r₁).response ≠ (s.handler rt r₂).response ∧
    (s.handler rt r₁).response ≠ (s.handler rt r₃).response ∧
    (s.handler rt r₂).response ≠ (s.handler rt r₃).response := by
  have e₁ := handler_of_not_post rt s r₁ h₁
  have e₂ := handler_of_decode_error rt s r₂ err h₂ hd₂
  have e₃ := handler_of_empty_comment rt s r₃ h₃ hd₃
  simp only [e₁, e₂, e₃, List.mem_cons, List.mem_singleton, List.not_mem_nil, or_false,
    forall_eq_or_imp, forall_eq]
  decide

/-- Witness for C7, amended: a GET request, the POST request with the truncated
body `{"comment":` and the POST request with body `{"comment":""}`. -/
theorem error_responses_distinct_witness :
    (mainService.handler sampleRuntime
      { Method := "GET", XRequestID := "", Body := "" }).response.statusCode = 405 ∧
    (mainService.handler sampleRuntime
      { Method := "POST", XRequestID := "", Body := "\x7b\"comment\":" }).response ≠
    (mainService.handler sampleRuntime
      { Method := "POST", XRequestID := "", Body := "\x7b\"comment\":\"\"\x7d" }).response :=
  ⟨(error_responses_distinct sampleRuntime mainService
      { Method := "GET", XRequestID := "", Body := "" }
      { Method := "POST", XRequestID := "", Body := "\x7b\"comment\":" }
      { Method := "POST", XRequestID := "", Body := "\x7b\"comment\":\"\"\x7d" }
      "invalid body" (by decide) rfl rfl rfl rfl).1,
    (error_responses_distinct sampleRuntime mainService
      { Method := "GET", XRequestID := "", Body := "" }
      { Method := "POST", XRequestID := "", Body := "\x7b\"comment\":" }
      { Method := "POST", XRequestID := "", Body := "\x7b\"comment\":\"\"\x7d" }
      "invalid body" (by decide) rfl rfl rfl rfl).2.2.2.2.2.2⟩

end Censorship
